import Mathlib

/-!
Shallow embedding of the KWebSocket reconnect/heartbeat client
(packages/websocket/src/index.ts).

The class is single-threaded and event-driven, so instance state is modelled
as an explicit record (`WSState`) and each method / event handler of the
source is a pure function `WSState → WSState × List Effect`.  Observable
actions (socket creation, frames sent on the wire, user callbacks, warnings,
scheduling of a reconnect timer) are emitted as `Effect`s so that claims
about "never delivered", "exactly N attempts scheduled", "no socket created"
are statements about the emitted effect lists.

Timers: the three timer handles of the source become fields of `WSState`.
`heartbeatTimer` stores the heartbeat payload captured by the closure of
`sendHeartbeat` (the source captures `const heartbeat = ...` once and the
interval callback reuses it).  `reconnectTimer` stores the `force` flag
captured by the closure in `_reconnect`.  A `setTimeout` timer that fires is
consumed (it cannot fire again); the stale numeric handle left behind in the
source is never read except for truthiness in `clearTimeout`, which is a
no-op on a fired handle, so dropping it is behaviour-preserving.

`Date.now()` is passed in as a `Nat` argument `now` to every handler that
reads the clock.  JS computes `now - lastHeartbeatTime` as a possibly
negative number compared with `> heartTimeout`; `Nat` subtraction truncates
at 0, which yields the same comparison outcome.

The `customHeartbeat` generator is modelled as a function of the number of
times it has been invoked (`hbGenCalls`, an instrumentation counter that no
operation reads for control flow); this makes "the generator is invoked at
most once and later sends reuse the captured string" expressible even for a
generator that would return different strings on different calls.

User callbacks (`onConnected`, `onMessage`, `onClose`, `onError`) are
represented by the corresponding `Effect` constructors rather than by
function fields.
-/

/-- The readyState values of a browser WebSocket. -/
inductive ReadyState
  | CONNECTING
  | OPEN
  | CLOSING
  | CLOSED
deriving DecidableEq, Repr

/-- Which onclose handler is currently installed on the socket: the one
installed by `_watch`, or the one-shot replacement installed by
`reinitialize` (which captures the new URL in its closure). -/
inductive CloseHandler
  | watch
  | reinitTo (newUrl : String)
deriving DecidableEq, Repr

/-- The underlying socket as far as the wrapper can observe it. -/
structure Socket where
  url : String
  readyState : ReadyState
  onclose : CloseHandler
deriving DecidableEq, Repr

/-- Merged options (defaults of the constructor applied).  `url` is copied
into `WSState` at construction because `reinitialize` mutates it; the
remaining fields are immutable after construction.  `uniqueKey` is an
`Option String` because the JS spread `{ ...defaults, ...options }` lets a
caller-supplied explicit `undefined` overwrite the default. -/
structure KWebSocketOptions where
  debug : Bool := false
  url : String
  maxReconnectTimes : Nat := 5
  reconnectInterval : Nat := 10000
  heartInterval : Nat := 10000
  heartbeat : String := "heartbeat"
  heartTimeout : Nat := 20000
  customHeartbeat : Option (Nat → String) := none
  uniqueKey : Option String := some "__DEFAULT__"
  autoRecover : Bool := true
  autoConnect : Bool := true

/-- Mutable per-instance session state. -/
structure WSState where
  url : String
  socket : Option Socket := none
  reconnectTimes : Nat := 0
  heartbeatTimer : Option String := none
  heartbeatCheckTimer : Bool := false
  reconnectTimer : Option Bool := none
  lastHeartbeatTime : Nat := 0
  destroyed : Bool := false
  manualCloseFlag : Bool := false
  isNetworkOffline : Bool := false
  isRecovering : Bool := false
  hbGenCalls : Nat := 0
deriving DecidableEq, Repr

/-- Observable actions of one handler invocation, in program order. -/
inductive Effect
  | socketCreated (url : String)
  | transmitted (payload : String)
  | messageDelivered (text : String)
  | connectedCalled
  | closeCalled
  | errorCalled
  | warned
  | reconnectScheduled (force : Bool)
deriving DecidableEq, Repr

/-- Initial session state of a freshly constructed instance. -/
def initialState (o : KWebSocketOptions) : WSState := { url := o.url }

/-- Source `_clearTimers`: clear and null all three timers. -/
def _clearTimers (s : WSState) : WSState :=
  { s with heartbeatTimer := none, heartbeatCheckTimer := false,
           reconnectTimer := none }

/-- Whether `this.socket?.readyState === WebSocket.OPEN`. -/
def socketOpen (s : WSState) : Bool :=
  match s.socket with
  | some sk => sk.readyState = ReadyState.OPEN
  | none => false

/-- Effect of `this.socket.close()` on the observable readyState: a socket
that is not yet CLOSED moves to CLOSING (the CLOSED transition happens when
the close event is later delivered). -/
def socketDotClose (s : WSState) : WSState :=
  match s.socket with
  | some sk =>
      if sk.readyState = ReadyState.CLOSED then s
      else { s with socket := some { sk with readyState := ReadyState.CLOSING } }
  | none => s

/-- Source `_closeSocket`: close the socket if present and not CLOSED, then
clear all timers. -/
def _closeSocket (s : WSState) : WSState :=
  _clearTimers (socketDotClose s)

/-- Source `_init`: create a new WebSocket on the current URL with the
`_watch` handlers installed, and stamp the heartbeat time. -/
def _init (s : WSState) (now : Nat) : WSState × List Effect :=
  ({ s with socket := some ⟨s.url, ReadyState.CONNECTING, CloseHandler.watch⟩,
            lastHeartbeatTime := now },
   [Effect.socketCreated s.url])

/-- Source `connect`: no-op when destroyed or when a non-CLOSED socket
exists; otherwise clears the manual-close flag and opens a socket. -/
def connect (s : WSState) (now : Nat) : WSState × List Effect :=
  if s.destroyed then (s, [])
  else
    match s.socket with
    | some sk =>
        if sk.readyState ≠ ReadyState.CLOSED then (s, [])
        else _init { s with manualCloseFlag := false } now
    | none => _init { s with manualCloseFlag := false } now

/-- Source `disconnect`: mark the close as manual and close the socket
without destroying the instance. -/
def disconnect (s : WSState) : WSState :=
  if s.destroyed then s
  else
    match s.socket with
    | none => s
    | some _ => _closeSocket { s with manualCloseFlag := true }

/-- Source `_reconnect(force)`: abort if manually closed; force-close the
socket and clear timers; a non-forced attempt increments the retry counter;
schedule the delayed retry when forced or when the counter is within the
ceiling. -/
def _reconnect (o : KWebSocketOptions) (force : Bool) (s : WSState) :
    WSState × List Effect :=
  if s.manualCloseFlag then (s, [])
  else
    let s1 := _closeSocket s
    let s2 := if force then s1
              else { s1 with reconnectTimes := s1.reconnectTimes + 1 }
    if force ∨ s2.reconnectTimes ≤ o.maxReconnectTimes then
      ({ s2 with reconnectTimer := some force }, [Effect.reconnectScheduled force])
    else (s2, [])

/-- Firing of the `setTimeout` callback scheduled by `_reconnect`.  The
one-shot timer is consumed; the callback re-checks the manual-close flag,
clears `isRecovering` when the attempt was forced, and opens a socket. -/
def fireReconnectTimer (s : WSState) (now : Nat) : WSState × List Effect :=
  match s.reconnectTimer with
  | none => (s, [])
  | some force =>
      let s1 := { s with reconnectTimer := none }
      if s1.manualCloseFlag then (s1, [])
      else
        let s2 := if force then { s1 with isRecovering := false } else s1
        _init s2 now

/-- JS `a || b` on strings: fall back when the first operand is empty. -/
def jsOrElse (a b : String) : String := if a = "" then b else a

/-- Source `sendHeartbeat`: no-op when the heartbeat timer already exists;
otherwise invoke the custom generator once (falling back to the static
string when absent or when the generated string is falsy), store the
captured payload in the repeating timer, and immediately send once if the
socket is open. -/
def sendHeartbeat (o : KWebSocketOptions) (s : WSState) : WSState × List Effect :=
  match s.heartbeatTimer with
  | some _ => (s, [])
  | none =>
      let (hb, s1) :=
        match o.customHeartbeat with
        | some f => (jsOrElse (f s.hbGenCalls) o.heartbeat,
                     { s with hbGenCalls := s.hbGenCalls + 1 })
        | none => (o.heartbeat, s)
      let s2 := { s1 with heartbeatTimer := some hb }
      if socketOpen s2 then (s2, [Effect.transmitted hb]) else (s2, [])

/-- One tick of the repeating heartbeat-send timer: transmit the payload
captured at activation whenever the socket is open.  The instance state is
untouched. -/
def fireHeartbeatTick (s : WSState) : WSState × List Effect :=
  match s.heartbeatTimer with
  | none => (s, [])
  | some hb => if socketOpen s then (s, [Effect.transmitted hb]) else (s, [])

/-- Source `stopHeartbeatCheck`. -/
def stopHeartbeatCheck (s : WSState) : WSState :=
  { s with heartbeatCheckTimer := false }

/-- Source `startHeartbeatCheck` (restart: stop then start). -/
def startHeartbeatCheck (s : WSState) : WSState :=
  { stopHeartbeatCheck s with heartbeatCheckTimer := true }

/-- One tick of the repeating staleness-check timer: when the time since the
last inbound message exceeds `heartTimeout`, trigger `_reconnect(false)`. -/
def fireHeartbeatCheck (o : KWebSocketOptions) (s : WSState) (now : Nat) :
    WSState × List Effect :=
  if s.heartbeatCheckTimer then
    if now - s.lastHeartbeatTime > o.heartTimeout then _reconnect o false s
    else (s, [])
  else (s, [])

/-- Delivery of the socket open event (readyState becomes OPEN before the
handler runs): call `onConnected`, reset the retry counter, stamp the
heartbeat time, start heartbeat send and staleness check. -/
def fireOpen (o : KWebSocketOptions) (s : WSState) (now : Nat) :
    WSState × List Effect :=
  match s.socket with
  | none => (s, [])
  | some sk =>
      let s1 := { s with socket := some { sk with readyState := ReadyState.OPEN },
                         reconnectTimes := 0, lastHeartbeatTime := now }
      let (s2, es) := sendHeartbeat o s1
      (startHeartbeatCheck s2, Effect.connectedCalled :: es)

/-- Delivery of an inbound message: stamp the heartbeat time on every
message; swallow a message equal to the static configured heartbeat string;
deliver anything else to `onMessage` verbatim. -/
def fireMessage (o : KWebSocketOptions) (s : WSState) (now : Nat)
    (data : String) : WSState × List Effect :=
  match s.socket with
  | none => (s, [])
  | some _ =>
      let s1 := { s with lastHeartbeatTime := now }
      if data = o.heartbeat then (s1, [])
      else (s1, [Effect.messageDelivered data])

/-- Delivery of the socket close event (readyState becomes CLOSED before the
handler runs), dispatching on whichever onclose handler is installed.  The
`_watch` handler clears timers, calls `onClose`, and starts a non-forced
reconnect unless the close was manual or the counter reached the ceiling.
The handler installed by `reinitialize` runs its captured `initNew`:
swap the URL, reset counters and flags, and open the new socket. -/
def fireClose (o : KWebSocketOptions) (s : WSState) (now : Nat) :
    WSState × List Effect :=
  match s.socket with
  | none => (s, [])
  | some sk =>
      let s1 := { s with socket := some { sk with readyState := ReadyState.CLOSED } }
      match sk.onclose with
      | CloseHandler.watch =>
          let s2 := _clearTimers s1
          if s2.manualCloseFlag = false ∧ s2.reconnectTimes < o.maxReconnectTimes then
            let (s3, es) := _reconnect o false s2
            (s3, Effect.closeCalled :: es)
          else (s2, [Effect.closeCalled])
      | CloseHandler.reinitTo newUrl =>
          _init { s1 with url := newUrl, reconnectTimes := 0,
                          isRecovering := false, manualCloseFlag := false } now

/-- A `send` payload: either a string (sent as-is) or a non-string value,
represented by the outcome JSON.stringify would have on it. -/
inductive SendData
  | str (text : String)
  | nonStr (json : Except Unit String)
deriving Repr

/-- Source `send`: warn and drop when no socket is open; serialize
non-string payloads (a serialization failure propagates as an exception,
modelled by `Except.error`); transmit the text frame. -/
def send (s : WSState) (data : SendData) :
    Except Unit (WSState × List Effect) :=
  if socketOpen s then
    match data with
    | SendData.str t => Except.ok (s, [Effect.transmitted t])
    | SendData.nonStr (Except.ok j) => Except.ok (s, [Effect.transmitted j])
    | SendData.nonStr (Except.error _) => Except.error ()
  else Except.ok (s, [Effect.warned])

/-- The offline handler bound by `_bindAutoRecover`: record that the network
went offline; no socket action. -/
def fireOffline (s : WSState) : WSState :=
  { s with isNetworkOffline := true }

/-- Whether the online handler judges the connection dead: socket absent or
CLOSED, or heartbeat stale beyond `heartTimeout`. -/
def deadOrStale (o : KWebSocketOptions) (s : WSState) (now : Nat) : Bool :=
  (match s.socket with
   | none => true
   | some sk => sk.readyState = ReadyState.CLOSED) ||
  decide (now - s.lastHeartbeatTime > o.heartTimeout)

/-- The online handler bound by `_bindAutoRecover`: no-op when manually
closed or when offline was never observed; otherwise clear the offline flag,
reset the retry counter, and issue one forced reconnect when the connection
is dead or stale and no recovery is already in flight. -/
def fireOnline (o : KWebSocketOptions) (s : WSState) (now : Nat) :
    WSState × List Effect :=
  if s.manualCloseFlag ∨ s.isNetworkOffline = false then (s, [])
  else
    let s1 := { s with isNetworkOffline := false, reconnectTimes := 0 }
    if deadOrStale o s1 now then
      if s1.isRecovering then (s1, [])
      else _reconnect o true { s1 with isRecovering := true }
    else (s1, [])

/-- Source `reinitialize(newUrl)`: warn on a destroyed instance or an empty
URL, skip when the URL is unchanged; otherwise suppress reconnection of the
old socket, clear all timers, and either open the new socket at once (no
socket, or socket already CLOSED) or replace on the old socket the onclose
handler and close it, deferring the new connection to that close event. -/
def reinitialize (s : WSState) (newUrl : String)
    (now : Nat) : WSState × List Effect :=
  if s.destroyed then (s, [Effect.warned])
  else if newUrl = "" then (s, [Effect.warned])
  else if s.url = newUrl then (s, [])
  else
    let s1 := _clearTimers { s with manualCloseFlag := true }
    match s1.socket with
    | none =>
        _init { s1 with url := newUrl, reconnectTimes := 0,
                        isRecovering := false, manualCloseFlag := false } now
    | some sk =>
        if sk.readyState = ReadyState.CLOSED then
          _init { s1 with url := newUrl, reconnectTimes := 0,
                          isRecovering := false, manualCloseFlag := false } now
        else
          ({ s1 with socket := some { sk with
               onclose := CloseHandler.reinitTo newUrl,
               readyState := ReadyState.CLOSING } }, [])

/-- Source `_destroy`: idempotent; mark destroyed and tear the socket and
timers down (listener removal has no further observable state here). -/
def _destroy (s : WSState) : WSState :=
  if s.destroyed then s
  else _closeSocket { s with destroyed := true }

/-!
Class-level registry (`KWebSocket.instances`), for the singleton /
teardown claims.  A caller-supplied `uniqueKey` is modelled as
`Option (Option String)`: `none` = property absent from the options object
(the default survives the spread), `some none` = property present with
value `undefined` (the spread overwrites the default with `undefined`),
`some (some k)` = a string, possibly empty.  The registry is an association
list; in JS it maps keys to object references, so a method that mutates the
instance is modelled as also updating the entry it is stored under (the
`storageKey` argument names that aliased entry).
-/

/-- One registered instance: its merged options plus session state. -/
structure Instance where
  opts : KWebSocketOptions
  st : WSState

/-- The class-level instance registry. -/
abbrev Registry := List (String × Instance)

/-- Association-list lookup. -/
def Registry.find : Registry → String → Option Instance
  | [], _ => none
  | (k, i) :: rest, key => if k = key then some i else Registry.find rest key

/-- Store an instance under a key (overwrite or append). -/
def Registry.store : Registry → String → Instance → Registry
  | [], key, inst => [(key, inst)]
  | (k, i) :: rest, key, inst =>
      if k = key then (key, inst) :: rest
      else (k, i) :: Registry.store rest key inst

/-- Remove the entry stored under a key. -/
def Registry.remove : Registry → String → Registry
  | [], _ => []
  | (k, i) :: rest, key =>
      if k = key then rest else (k, i) :: Registry.remove rest key

/-- The key used by `getInstance` for registry lookup and registration:
`options.uniqueKey || "__DEFAULT__"` on the RAW caller options (absent,
`undefined` and the empty string are all falsy). -/
def registryKey : Option (Option String) → String
  | some (some k) => if k = "" then "__DEFAULT__" else k
  | _ => "__DEFAULT__"

/-- The `uniqueKey` stored on the instance after the spread merge of the constructor:
merge `{ ...defaults, ...options }`: an absent property keeps the default,
while an explicitly `undefined` one overwrites it with `undefined`. -/
def mergedUniqueKey : Option (Option String) → Option String
  | none => some "__DEFAULT__"
  | some v => v

/-- The constructor: merge the defaults (only `uniqueKey` needs the
presence/absence distinction; `base` carries the other merged fields), bind
auto-recover handlers, and connect immediately when `autoConnect`. -/
def mkInstance (rawKey : Option (Option String)) (base : KWebSocketOptions)
    (now : Nat) : Instance :=
  let opts := { base with uniqueKey := mergedUniqueKey rawKey }
  let st0 := initialState opts
  let st := if opts.autoConnect then (connect st0 now).1 else st0
  { opts := opts, st := st }

/-- Source static `getInstance`: return the existing instance for the key
when present (the code checks only presence, not `destroyed`); otherwise
construct and register a new one. -/
def getInstance (reg : Registry) (rawKey : Option (Option String))
    (base : KWebSocketOptions) (now : Nat) : Registry × Instance :=
  let key := registryKey rawKey
  match reg.find key with
  | some existing => (reg, existing)
  | none =>
      let inst := mkInstance rawKey base now
      (reg.store key inst, inst)

/-- Source instance method `close()` invoked on the instance stored under
`storageKey`: no-op when already destroyed; otherwise set the manual-close
flag, destroy, and delete the registry entry only when the merged
`options.uniqueKey` is truthy (non-empty string). -/
def instanceClose (reg : Registry) (storageKey : String) : Registry :=
  match reg.find storageKey with
  | none => reg
  | some inst =>
      if inst.st.destroyed then reg
      else
        let st1 := _destroy { inst.st with manualCloseFlag := true }
        let reg1 := reg.store storageKey { inst with st := st1 }
        match inst.opts.uniqueKey with
        | some k => if k = "" then reg1 else reg1.remove k
        | none => reg1

/-!
Scenario combinators used by the claims.
-/

/-- One unexpected-close cycle: the close event of the socket fires, then the
reconnect timer (if scheduled) fires, producing the next socket. -/
def closeCycle (o : KWebSocketOptions) (now : Nat) (s : WSState) :
    WSState × List Effect :=
  let (s1, e1) := fireClose o s now
  let (s2, e2) := fireReconnectTimer s1 now
  (s2, e1 ++ e2)

/-- Iterate `closeCycle`. -/
def closeCycles (o : KWebSocketOptions) (now : Nat) :
    Nat → WSState → WSState × List Effect
  | 0, s => (s, [])
  | n + 1, s =>
      let (s1, e1) := closeCycle o now s
      let (s2, e2) := closeCycles o now n s1
      (s2, e1 ++ e2)

/-- Iterate the heartbeat-send timer tick. -/
def hbTicks : Nat → WSState → WSState × List Effect
  | 0, s => (s, [])
  | n + 1, s =>
      let (s1, e1) := fireHeartbeatTick s
      let (s2, e2) := hbTicks n s1
      (s2, e1 ++ e2)

/-- Number of non-forced reconnect attempts scheduled in an effect list. -/
def countScheduled (force : Bool) (es : List Effect) : Nat :=
  es.countP (fun e => e = Effect.reconnectScheduled force)

/-- Whether an effect list creates a socket. -/
def createsSocket (es : List Effect) : Bool :=
  es.any (fun e => match e with
    | Effect.socketCreated _ => true
    | _ => false)

/-!
Concrete inputs used by the counterexamples and by the witnesses of the
claims below.
-/

/-- Default options on a sample URL. -/
def c3o : KWebSocketOptions := { url := "ws://a" }

/-- Reachable state for the staleness counterexample: a fresh instance whose
socket has just opened at time 0 (heartbeat timers running). -/
def c3s : WSState := (fireOpen c3o (_init (initialState c3o) 0).1 0).1

/-- Options with a custom heartbeat generator returning a string different
from the static default. -/
def c4o : KWebSocketOptions :=
  { url := "ws://a", customHeartbeat := some (fun _ => "X") }

/-- A fresh instance of `c4o` right before its open event. -/
def c4s0 : WSState := (_init (initialState c4o) 0).1

/-- The `c4o` instance after the open event: the transmitted heartbeat
payload is the generated string. -/
def c4s : WSState := (fireOpen c4o c4s0 0).1

/-- Base options for the registry scenario (autoConnect off keeps the
session state inert; the registry behaviour is what is at stake). -/
def c5Base : KWebSocketOptions := { url := "ws://a", autoConnect := false }

/-- Registry after `getInstance` with a caller-supplied explicitly
`undefined` uniqueKey: the instance is registered under "__DEFAULT__" while
its merged `options.uniqueKey` is `undefined`. -/
def c5reg1 : Registry := (getInstance [] (some none) c5Base 0).1

/-- Registry after `close()` on the instance. -/
def c5reg2 : Registry := instanceClose c5reg1 "__DEFAULT__"

/-- Witness inputs: an open socket under options with ceiling 2. -/
def wO : KWebSocketOptions := { url := "ws://w1", maxReconnectTimes := 2 }

/-- Witness socket for the bounded-retry claim. -/
def wSk : Socket := ⟨"ws://w1", ReadyState.OPEN, CloseHandler.watch⟩

/-- Witness state for the bounded-retry claim. -/
def wS : WSState := { url := "ws://w1", socket := some wSk }

/-- Witness socket for the manual-close claim. -/
def w2Sk : Socket := ⟨"ws://w2", ReadyState.OPEN, CloseHandler.watch⟩

/-- Witness state for the manual-close claim. -/
def w2S : WSState :=
  { url := "ws://w2", socket := some w2Sk,
    heartbeatTimer := some "heartbeat", heartbeatCheckTimer := true }

/-- Witness state for the amended staleness claim. -/
def w3S : WSState :=
  { url := "ws://w3",
    socket := some ⟨"ws://w3", ReadyState.OPEN, CloseHandler.watch⟩,
    heartbeatTimer := some "heartbeat", heartbeatCheckTimer := true }

/-- Witness socket for the amended filtering claim. -/
def w4Sk : Socket := ⟨"ws://w4", ReadyState.OPEN, CloseHandler.watch⟩

/-- Witness state for the amended filtering claim. -/
def w4S : WSState := { url := "ws://w4", socket := some w4Sk }

/-- Witness socket for the reinitialize-ordering claim. -/
def w6Sk : Socket := ⟨"ws://w6", ReadyState.OPEN, CloseHandler.watch⟩

/-- Witness state for the reinitialize-ordering claim. -/
def w6S : WSState :=
  { url := "ws://w6", socket := some w6Sk,
    heartbeatTimer := some "heartbeat", heartbeatCheckTimer := true }

/-- Witness state (open socket) for the send contract. -/
def w7S : WSState :=
  { url := "ws://w7",
    socket := some ⟨"ws://w7", ReadyState.OPEN, CloseHandler.watch⟩ }

/-- Witness state (no socket) for the send contract. -/
def w7C : WSState := { url := "ws://w7" }

/-- Witness state for the network-recovery claim: socket absent and
heartbeat long stale. -/
def w8S : WSState := { url := "ws://w8" }

/-- Witness options for the custom-heartbeat capture claim: a generator
whose output changes between invocations. -/
def w9o : KWebSocketOptions :=
  { url := "ws://w9",
    customHeartbeat := some (fun n => if n = 0 then "A" else "B") }

/-- Witness state for the custom-heartbeat capture claim. -/
def w9S : WSState :=
  { url := "ws://w9",
    socket := some ⟨"ws://w9", ReadyState.OPEN, CloseHandler.watch⟩ }

/-- Witness socket for the handler-replacement claim. -/
def w10Sk : Socket := ⟨"ws://w10", ReadyState.OPEN, CloseHandler.watch⟩

/-- Witness state for the handler-replacement claim. -/
def w10S : WSState :=
  { url := "ws://w10", socket := some w10Sk,
    heartbeatTimer := some "heartbeat", heartbeatCheckTimer := true,
    reconnectTimer := some false }

/-!
Theorems.
-/

/-- Helper: a heartbeat tick never changes the instance state. -/
theorem fireHeartbeatTick_fst (s : WSState) : (fireHeartbeatTick s).1 = s := by
  unfold fireHeartbeatTick
  cases h : s.heartbeatTimer with
  | none => rfl
  | some hb => by_cases ho : socketOpen s <;> simp [ho]

/-- Helper: every effect of a heartbeat tick is a transmission of the
payload captured in the timer. -/
theorem fireHeartbeatTick_effects (s : WSState) (hb : String)
    (h : s.heartbeatTimer = some hb) :
    ∀ e ∈ (fireHeartbeatTick s).2, e = Effect.transmitted hb := by
  unfold fireHeartbeatTick
  rw [h]
  by_cases ho : socketOpen s <;> simp [ho]

/-- Helper: iterated heartbeat ticks never change the instance state. -/
theorem hbTicks_fst (n : Nat) (s : WSState) : (hbTicks n s).1 = s := by
  induction n generalizing s with
  | zero => rfl
  | succ n ih =>
      show (hbTicks (n + 1) s).1 = s
      unfold hbTicks
      have h1 := fireHeartbeatTick_fst s
      simp [h1, ih]

/-- Helper: every effect of iterated heartbeat ticks transmits the captured
payload. -/
theorem hbTicks_effects (n : Nat) (s : WSState) (hb : String)
    (h : s.heartbeatTimer = some hb) :
    ∀ e ∈ (hbTicks n s).2, e = Effect.transmitted hb := by
  induction n generalizing s with
  | zero => intro e he; simp [hbTicks] at he
  | succ n ih =>
      intro e he
      unfold hbTicks at he
      have h1 := fireHeartbeatTick_fst s
      simp [h1] at he
      rcases he with hl | hr
      · exact fireHeartbeatTick_effects s hb h e hl
      · exact ih s h e hr

/-- C7: `send` transmits only on an open socket; otherwise it warns and
drops the payload without throwing and without touching the state; a
non-string payload is transmitted as its JSON serialization, and a
serialization failure is the only propagating exception. -/
theorem send_contract (s : WSState) :
    (socketOpen s = false →
      ∀ d : SendData, send s d = Except.ok (s, [Effect.warned])) ∧
    (socketOpen s = true →
      (∀ t, send s (SendData.str t) = Except.ok (s, [Effect.transmitted t])) ∧
      (∀ j, send s (SendData.nonStr (Except.ok j)) =
          Except.ok (s, [Effect.transmitted j])) ∧
      send s (SendData.nonStr (Except.error ())) = Except.error ()) := by
  constructor
  · intro h d
    cases d with
    | str t => simp [send, h]
    | nonStr j => cases j <;> simp [send, h]
  · intro h
    refine ⟨fun t => ?_, fun j => ?_, ?_⟩ <;> simp [send, h]

/-- C7 witness: concrete evaluations of the send contract. -/
theorem send_contract_witness :
    send w7C (SendData.str "hi") = Except.ok (w7C, [Effect.warned]) ∧
    send w7S (SendData.str "hi") = Except.ok (w7S, [Effect.transmitted "hi"]) ∧
    send w7S (SendData.nonStr (Except.error ())) = Except.error () := by
  refine ⟨(send_contract w7C).1 rfl (SendData.str "hi"), ?_, ?_⟩
  · exact ((send_contract w7S).2 rfl).1 "hi"
  · exact ((send_contract w7S).2 rfl).2.2

/-- C4 counterexample: with a custom heartbeat generator returning "X", the
payload actually transmitted as heartbeat is "X", yet an inbound "X" is
delivered verbatim to `onMessage` instead of being swallowed (filtering
compares only against the static configured heartbeat string). -/
theorem heartbeat_filter_counterexample :
    (fireOpen c4o c4s0 0).2 = [Effect.connectedCalled, Effect.transmitted "X"] ∧
    (fireMessage c4o c4s 5 "X").2 = [Effect.messageDelivered "X"] ∧
    c4o.heartbeat = "heartbeat" := ⟨rfl, rfl, rfl⟩

/-- C4 amended: an inbound message is swallowed exactly when it equals the
static configured heartbeat string (`options.heartbeat`); every other
message — including one equal to a differing custom-generated heartbeat
payload — is delivered to `onMessage` verbatim. -/
theorem heartbeat_filter_static (o : KWebSocketOptions) (s : WSState)
    (sk : Socket) (now : Nat) (data : String) (hsk : s.socket = some sk) :
    (data = o.heartbeat → (fireMessage o s now data).2 = []) ∧
    (data ≠ o.heartbeat →
      (fireMessage o s now data).2 = [Effect.messageDelivered data]) ∧
    (fireMessage o s now data).1.lastHeartbeatTime = now := by
  refine ⟨fun h => ?_, fun h => ?_, ?_⟩
  · simp [fireMessage, hsk, h]
  · simp [fireMessage, hsk, h]
  · by_cases h : data = o.heartbeat <;> simp [fireMessage, hsk, h]

/-- C4 amended witness: the static heartbeat echo is swallowed, a normal
message is delivered verbatim. -/
theorem heartbeat_filter_static_witness :
    (fireMessage c3o w4S 9 "heartbeat").2 = [] ∧
    (fireMessage c3o w4S 9 "hello").2 = [Effect.messageDelivered "hello"] := by
  refine ⟨?_, ?_⟩
  · exact (heartbeat_filter_static c3o w4S w4Sk 9 "heartbeat" rfl).1 rfl
  · exact (heartbeat_filter_static c3o w4S w4Sk 9 "hello" rfl).2.1 (by decide)

/-- C5: evaluation at the failing input.  With a caller-supplied explicitly
undefined uniqueKey the instance is registered under "__DEFAULT__", but
after its `close()` the (destroyed) instance is still a member of the
registry, and a subsequent `getInstance` returns that destroyed instance. -/
theorem close_leaves_registry_bug :
    (Registry.find c5reg2 "__DEFAULT__").isSome = true ∧
    (Registry.find c5reg2 "__DEFAULT__").map (fun i => i.st.destroyed)
      = some true ∧
    (getInstance c5reg2 (some none) c5Base 1).2.st.destroyed = true := by
  exact ⟨rfl, rfl, rfl⟩

/-- C3 counterexample: on a freshly opened default instance, a staleness
detection schedules a NON-forced reconnect attempt: the retry counter is
incremented from 0 to 1 and the scheduled timer carries force = false, while
a forced attempt would leave the counter untouched; so the reconnect path
fired by staleness is not the forced one. -/
theorem staleness_counterexample :
    (fireHeartbeatCheck c3o c3s 30001).2 = [Effect.reconnectScheduled false] ∧
    (fireHeartbeatCheck c3o c3s 30001).1.reconnectTimes = 1 ∧
    (fireHeartbeatCheck c3o c3s 30001).1.reconnectTimer = some false ∧
    countScheduled true (fireHeartbeatCheck c3o c3s 30001).2 = 0 ∧
    (_reconnect c3o true c3s).1.reconnectTimes = 0 ∧
    (_reconnect c3o true c3s).2 = [Effect.reconnectScheduled true] := by
  exact ⟨rfl, rfl, rfl, rfl, rfl, rfl⟩

/-- Helper: `_closeSocket` clears the timers and leaves every other
non-socket field unchanged. -/
theorem closeSocket_fields (s : WSState) :
    (_closeSocket s).reconnectTimes = s.reconnectTimes ∧
    (_closeSocket s).manualCloseFlag = s.manualCloseFlag ∧
    (_closeSocket s).heartbeatTimer = none ∧
    (_closeSocket s).heartbeatCheckTimer = false ∧
    (_closeSocket s).reconnectTimer = none ∧
    (_closeSocket s).destroyed = s.destroyed ∧
    (_closeSocket s).isRecovering = s.isRecovering ∧
    (_closeSocket s).url = s.url ∧
    (_closeSocket s).lastHeartbeatTime = s.lastHeartbeatTime ∧
    (_closeSocket s).isNetworkOffline = s.isNetworkOffline ∧
    (_closeSocket s).hbGenCalls = s.hbGenCalls := by
  unfold _closeSocket _clearTimers socketDotClose
  cases h : s.socket with
  | none => simp
  | some sk => by_cases hr : sk.readyState = ReadyState.CLOSED <;> simp [hr]

/-- Helper: characterization of a non-forced reconnect attempt on a state
that is not manually closed: the retry counter is incremented first, and the
attempt is scheduled exactly when the incremented counter stays within the
ceiling; no forced attempt is emitted and the staleness timers are cleared. -/
theorem reconnect_false_spec (o : KWebSocketOptions) (s : WSState)
    (hm : s.manualCloseFlag = false) :
    (_reconnect o false s).1.reconnectTimes = s.reconnectTimes + 1 ∧
    ((_reconnect o false s).1.reconnectTimer = some false ↔
      s.reconnectTimes + 1 ≤ o.maxReconnectTimes) ∧
    ((_reconnect o false s).2 = [Effect.reconnectScheduled false] ↔
      s.reconnectTimes + 1 ≤ o.maxReconnectTimes) ∧
    (_reconnect o false s).1.heartbeatCheckTimer = false ∧
    (_reconnect o false s).1.heartbeatTimer = none ∧
    countScheduled true (_reconnect o false s).2 = 0 ∧
    (_reconnect o false s).1.manualCloseFlag = false := by
  obtain ⟨h1, h2, h3, h4, h5, _⟩ := closeSocket_fields s
  unfold _reconnect
  by_cases hle : s.reconnectTimes + 1 ≤ o.maxReconnectTimes
  · simp [hm, h1, h2, h3, h4, hle, countScheduled]
  · simp [hm, h1, h2, h3, h4, h5, hle, countScheduled]

/-- Helper: a forced reconnect attempt on a state that is not manually
closed always schedules, does not touch the retry counter, and emits exactly
one forced scheduling effect. -/
theorem reconnect_true_spec (o : KWebSocketOptions) (s : WSState)
    (hm : s.manualCloseFlag = false) :
    _reconnect o true s =
      ({ _closeSocket s with reconnectTimer := some true },
       [Effect.reconnectScheduled true]) := by
  simp [_reconnect, hm]

/-- C3 amended: while the staleness-check timer is active and no manual
close is in effect, a staleness detection fires the NON-forced reconnect
path exactly once: the retry counter is incremented (so the attempt counts
against the ceiling and is scheduled exactly when it stays within it), no
forced attempt is emitted, and the staleness-check timer is cleared as part
of the triggered reconnect, so a single staleness episode cannot fire the
path a second time. -/
theorem staleness_nonforced_once (o : KWebSocketOptions) (s : WSState)
    (now : Nat) (hc : s.heartbeatCheckTimer = true)
    (hm : s.manualCloseFlag = false)
    (hstale : now - s.lastHeartbeatTime > o.heartTimeout) :
    (fireHeartbeatCheck o s now).1.heartbeatCheckTimer = false ∧
    (fireHeartbeatCheck o s now).1.heartbeatTimer = none ∧
    (fireHeartbeatCheck o s now).1.reconnectTimes = s.reconnectTimes + 1 ∧
    countScheduled true (fireHeartbeatCheck o s now).2 = 0 ∧
    ((fireHeartbeatCheck o s now).2 = [Effect.reconnectScheduled false] ↔
      s.reconnectTimes + 1 ≤ o.maxReconnectTimes) ∧
    (∀ now2, fireHeartbeatCheck o (fireHeartbeatCheck o s now).1 now2 =
      ((fireHeartbeatCheck o s now).1, [])) := by
  have hrun : fireHeartbeatCheck o s now = _reconnect o false s := by
    simp [fireHeartbeatCheck, hc, hstale]
  obtain ⟨r1, r2, r3, r4, r5, r6, r7⟩ := reconnect_false_spec o s hm
  rw [hrun]
  refine ⟨r4, r5, r1, r6, r3, fun now2 => ?_⟩
  simp [fireHeartbeatCheck, r4]

/-- C3 amended witness: concrete staleness firing schedules the non-forced
attempt and clears the check timer. -/
theorem staleness_nonforced_once_witness :
    (fireHeartbeatCheck c3o w3S 50000).1.heartbeatCheckTimer = false ∧
    (fireHeartbeatCheck c3o w3S 50000).1.reconnectTimes = 1 ∧
    countScheduled true (fireHeartbeatCheck c3o w3S 50000).2 = 0 := by
  have h := staleness_nonforced_once c3o w3S 50000 rfl rfl (by decide)
  exact ⟨h.1, h.2.2.1, h.2.2.2.1⟩

/-- Helper: the `_watch` onclose handler on a manually closed state calls
`onClose` and nothing else; in particular no reconnect is scheduled. -/
theorem fireClose_manual (o : KWebSocketOptions) (t : WSState) (sk2 : Socket)
    (hsk : t.socket = some sk2) (hw : sk2.onclose = CloseHandler.watch)
    (hm : t.manualCloseFlag = true) (now : Nat) :
    (fireClose o t now).2 = [Effect.closeCalled] ∧
    (fireClose o t now).1.reconnectTimer = none := by
  unfold fireClose
  rw [hsk]
  simp [hw, _clearTimers, hm]

/-- C2: after `disconnect()` on a live instance with a socket, the
manual-close flag is set, the resulting close event only reports `onClose`
and schedules nothing (no reconnect timer, no socket creation); and any
reconnect timer that fires while the manual-close flag is set aborts before
creating a socket. -/
theorem manual_close_suppresses (o : KWebSocketOptions) (now now2 : Nat)
    (s : WSState) (sk : Socket) (hd : s.destroyed = false)
    (hsk : s.socket = some sk) (hw : sk.onclose = CloseHandler.watch) :
    (disconnect s).manualCloseFlag = true ∧
    (fireClose o (disconnect s) now).2 = [Effect.closeCalled] ∧
    (fireClose o (disconnect s) now).1.reconnectTimer = none ∧
    createsSocket (fireClose o (disconnect s) now).2 = false ∧
    (∀ t : WSState, t.manualCloseFlag = true →
      (fireReconnectTimer t now2).1.socket = t.socket ∧
      createsSocket (fireReconnectTimer t now2).2 = false) := by
  have hdis : disconnect s = _closeSocket { s with manualCloseFlag := true } := by
    simp [disconnect, hd, hsk]
  have hman : (disconnect s).manualCloseFlag = true := by
    rw [hdis]; exact ((closeSocket_fields _).2.1).trans rfl
  have hsock : ∃ rs, (disconnect s).socket = some ⟨sk.url, rs, sk.onclose⟩ := by
    rw [hdis]
    unfold _closeSocket _clearTimers socketDotClose
    by_cases hr : sk.readyState = ReadyState.CLOSED <;>
      simp [hsk, hr] <;> exact ⟨sk.readyState, rfl⟩
  obtain ⟨rs, hsock⟩ := hsock
  have hw2 : (Socket.mk sk.url rs sk.onclose).onclose = CloseHandler.watch := hw
  obtain ⟨hc1, hc2⟩ := fireClose_manual o (disconnect s) _ hsock hw2 hman now
  refine ⟨hman, hc1, hc2, ?_, ?_⟩
  · rw [hc1]; rfl
  · intro t ht
    cases htm : t.reconnectTimer with
    | none => simp [fireReconnectTimer, htm, createsSocket]
    | some f => simp [fireReconnectTimer, htm, ht, createsSocket]

/-- C2 witness: concrete disconnect-then-close schedules nothing. -/
theorem manual_close_suppresses_witness :
    (disconnect w2S).manualCloseFlag = true ∧
    (fireClose c3o (disconnect w2S) 3).2 = [Effect.closeCalled] ∧
    (fireClose c3o (disconnect w2S) 3).1.reconnectTimer = none := by
  have h := manual_close_suppresses c3o 3 4 w2S w2Sk rfl rfl rfl
  exact ⟨h.1, h.2.1, h.2.2.1⟩

/-- C9: with a custom heartbeat generator configured, activating the
heartbeat-send timer invokes the generator exactly once, stores the captured
string, and every later tick of that timer retransmits the captured string
without invoking the generator again; an activation while the timer already
exists is a complete no-op. -/
theorem custom_heartbeat_capture (o : KWebSocketOptions) (f : Nat → String)
    (s : WSState) (n : Nat) (hf : o.customHeartbeat = some f)
    (ht : s.heartbeatTimer = none) :
    (sendHeartbeat o s).1.hbGenCalls = s.hbGenCalls + 1 ∧
    (sendHeartbeat o s).1.heartbeatTimer =
      some (jsOrElse (f s.hbGenCalls) o.heartbeat) ∧
    (hbTicks n (sendHeartbeat o s).1).1 = (sendHeartbeat o s).1 ∧
    (∀ e ∈ (hbTicks n (sendHeartbeat o s).1).2,
      e = Effect.transmitted (jsOrElse (f s.hbGenCalls) o.heartbeat)) ∧
    (hbTicks n (sendHeartbeat o s).1).1.hbGenCalls = s.hbGenCalls + 1 ∧
    (∀ (t : String) (u : WSState), u.heartbeatTimer = some t →
      sendHeartbeat o u = (u, [])) := by
  have hfst : (sendHeartbeat o s).1 =
      { s with hbGenCalls := s.hbGenCalls + 1,
               heartbeatTimer := some (jsOrElse (f s.hbGenCalls) o.heartbeat) } := by
    unfold sendHeartbeat
    rw [ht, hf]
    dsimp only
    split <;> rfl
  have htimer : (sendHeartbeat o s).1.heartbeatTimer =
      some (jsOrElse (f s.hbGenCalls) o.heartbeat) := by rw [hfst]
  refine ⟨by rw [hfst], htimer, hbTicks_fst n _, ?_, ?_, ?_⟩
  · exact hbTicks_effects n _ _ htimer
  · rw [hbTicks_fst n _, hfst]
  · intro t u hu
    unfold sendHeartbeat
    rw [hu]

/-- C9 witness: a generator whose output differs between invocations is
called once; two later ticks both transmit the first string. -/
theorem custom_heartbeat_capture_witness :
    (sendHeartbeat w9o w9S).1.hbGenCalls = 1 ∧
    (sendHeartbeat w9o w9S).1.heartbeatTimer = some "A" ∧
    (hbTicks 2 (sendHeartbeat w9o w9S).1).2 =
      [Effect.transmitted "A", Effect.transmitted "A"] := by
  have h := custom_heartbeat_capture w9o (fun n => if n = 0 then "A" else "B")
    w9S 2 rfl rfl
  exact ⟨h.1, h.2.1, by decide⟩

/-- Helper: on a live instance with a non-CLOSED socket and a genuinely new
non-empty URL, `reinitialize` keeps the single socket slot on the old socket
(now CLOSING, with the replacement onclose handler), clears all timers, sets
the manual-close suppression, and creates nothing. -/
theorem reinit_defers (s : WSState) (sk : Socket) (newUrl : String)
    (now : Nat) (hd : s.destroyed = false) (hsk : s.socket = some sk)
    (hopen : sk.readyState = ReadyState.OPEN) (hne : newUrl ≠ "")
    (hdiff : s.url ≠ newUrl) :
    reinitialize s newUrl now =
      ({ s with manualCloseFlag := true, heartbeatTimer := none,
                heartbeatCheckTimer := false, reconnectTimer := none,
                socket := some ⟨sk.url, ReadyState.CLOSING,
                                CloseHandler.reinitTo newUrl⟩ }, []) := by
  unfold reinitialize _clearTimers
  simp [hd, hne, hdiff, hsk, hopen]

/-- C6: `reinitialize(newUrl)` on an open socket defers socket creation to
the close event of the old socket (no second non-closed socket ever exists: the
reinitialized state still holds only the old, closing socket and creates
nothing), and the deferred creation connects to `newUrl` with the retry
counter reset to 0, the recovering flag cleared, and the manual-close
suppression cleared. -/
theorem reinit_ordering (o : KWebSocketOptions) (s : WSState) (sk : Socket)
    (newUrl : String) (now now2 : Nat) (hd : s.destroyed = false)
    (hsk : s.socket = some sk) (hopen : sk.readyState = ReadyState.OPEN)
    (hne : newUrl ≠ "") (hdiff : s.url ≠ newUrl) :
    ( reinitialize s newUrl now).2 = [] ∧
    ( reinitialize s newUrl now).1.socket =
      some ⟨sk.url, ReadyState.CLOSING, CloseHandler.reinitTo newUrl⟩ ∧
    (fireClose o ( reinitialize s newUrl now).1 now2).2 =
      [Effect.socketCreated newUrl] ∧
    (fireClose o ( reinitialize s newUrl now).1 now2).1.socket =
      some ⟨newUrl, ReadyState.CONNECTING, CloseHandler.watch⟩ ∧
    (fireClose o ( reinitialize s newUrl now).1 now2).1.url = newUrl ∧
    (fireClose o ( reinitialize s newUrl now).1 now2).1.reconnectTimes = 0 ∧
    (fireClose o ( reinitialize s newUrl now).1 now2).1.isRecovering = false ∧
    (fireClose o ( reinitialize s newUrl now).1 now2).1.manualCloseFlag = false := by
  have hr := reinit_defers s sk newUrl now hd hsk hopen hne hdiff
  rw [hr]
  refine ⟨rfl, rfl, ?_, ?_, ?_, ?_, ?_, ?_⟩ <;> simp [fireClose, _init]

/-- C6 witness: concrete deferred reinitialization. -/
theorem reinit_ordering_witness :
    ( reinitialize w6S "ws://n6" 1).2 = [] ∧
    (fireClose c3o ( reinitialize w6S "ws://n6" 1).1 2).2 =
      [Effect.socketCreated "ws://n6"] ∧
    (fireClose c3o ( reinitialize w6S "ws://n6" 1).1 2).1.reconnectTimes = 0 := by
  have h := reinit_ordering c3o w6S w6Sk "ws://n6" 1 2 rfl rfl rfl
    (by decide) (by decide)
  exact ⟨h.1, h.2.2.1, h.2.2.2.2.2.1⟩

/-- C10: `reinitialize(newUrl)` on an open socket replaces the onclose
handler of the socket with the internal one (so the user `onClose` callback
is not invoked for the close of the old socket) and has already cleared all three
timers before that close event fires. -/
theorem reinit_replaces_close_handler (o : KWebSocketOptions) (s : WSState)
    (sk : Socket) (newUrl : String) (now now2 : Nat)
    (hd : s.destroyed = false) (hsk : s.socket = some sk)
    (hopen : sk.readyState = ReadyState.OPEN) (hne : newUrl ≠ "")
    (hdiff : s.url ≠ newUrl) :
    (∃ sk2 : Socket, ( reinitialize s newUrl now).1.socket = some sk2 ∧
      sk2.onclose = CloseHandler.reinitTo newUrl) ∧
    ( reinitialize s newUrl now).1.heartbeatTimer = none ∧
    ( reinitialize s newUrl now).1.heartbeatCheckTimer = false ∧
    ( reinitialize s newUrl now).1.reconnectTimer = none ∧
    Effect.closeCalled ∉ (fireClose o ( reinitialize s newUrl now).1 now2).2 := by
  have hr := reinit_defers s sk newUrl now hd hsk hopen hne hdiff
  rw [hr]
  refine ⟨⟨_, rfl, rfl⟩, rfl, rfl, rfl, ?_⟩
  simp [fireClose, _init]

/-- C10 witness: concrete handler replacement; the close of the old
socket does not invoke the user `onClose` callback. -/
theorem reinit_replaces_close_handler_witness :
    ( reinitialize w10S "ws://n10" 1).1.heartbeatTimer = none ∧
    ( reinitialize w10S "ws://n10" 1).1.reconnectTimer = none ∧
    Effect.closeCalled ∉ (fireClose c3o ( reinitialize w10S "ws://n10" 1).1 2).2 := by
  have h := reinit_replaces_close_handler c3o w10S w10Sk "ws://n10" 1 2 rfl rfl
    rfl (by decide) (by decide)
  exact ⟨h.2.1, h.2.2.2.1, h.2.2.2.2⟩

/-- Helper: case analysis of the online handler on a state where a manual
close is not in effect and offline was observed. -/
theorem fireOnline_spec (o : KWebSocketOptions) (s : WSState) (now : Nat)
    (hm : s.manualCloseFlag = false) (hoff : s.isNetworkOffline = true) :
    fireOnline o s now =
      if deadOrStale o s now then
        (if s.isRecovering then
          ({ s with isNetworkOffline := false, reconnectTimes := 0 }, [])
         else _reconnect o true
          { s with isNetworkOffline := false, reconnectTimes := 0,
                   isRecovering := true })
      else ({ s with isNetworkOffline := false, reconnectTimes := 0 }, []) := by
  unfold fireOnline
  rw [if_neg (by simp [hm, hoff])]
  rfl

/-- C8: with autoRecover enabled and no manual close in effect, an offline
signal followed by an online signal issues exactly one forced reconnect when
the socket is absent, closed or heartbeat-stale and no recovery is in
flight, with the retry counter reset to 0 by the online handler; a recovery
already in flight blocks a duplicate; a healthy socket at online time gets
no reconnect; and a second online signal without a new offline is a no-op. -/
theorem network_recovery (o : KWebSocketOptions) (s : WSState)
    (now now2 : Nat) (har : o.autoRecover = true)
    (hm : s.manualCloseFlag = false) :
    (fireOffline s).isNetworkOffline = true ∧
    (deadOrStale o s now = true → s.isRecovering = false →
      (fireOnline o (fireOffline s) now).2 = [Effect.reconnectScheduled true] ∧
      (fireOnline o (fireOffline s) now).1.reconnectTimes = 0 ∧
      (fireOnline o (fireOffline s) now).1.isNetworkOffline = false ∧
      (fireOnline o (fireOffline s) now).1.isRecovering = true ∧
      (fireOnline o (fireOffline s) now).1.reconnectTimer = some true ∧
      fireOnline o (fireOnline o (fireOffline s) now).1 now2 =
        ((fireOnline o (fireOffline s) now).1, [])) ∧
    (deadOrStale o s now = true → s.isRecovering = true →
      (fireOnline o (fireOffline s) now).2 = [] ∧
      (fireOnline o (fireOffline s) now).1.reconnectTimes = 0) ∧
    (deadOrStale o s now = false →
      (fireOnline o (fireOffline s) now).2 = [] ∧
      (fireOnline o (fireOffline s) now).1.reconnectTimes = 0 ∧
      (fireOnline o (fireOffline s) now).1.socket = s.socket ∧
      (fireOnline o (fireOffline s) now).1.reconnectTimer = s.reconnectTimer) := by
  have hfo1 : (fireOffline s).manualCloseFlag = false := hm
  have hfo2 : (fireOffline s).isNetworkOffline = true := rfl
  have hds : deadOrStale o (fireOffline s) now = deadOrStale o s now := rfl
  have hspec := fireOnline_spec o (fireOffline s) now hfo1 hfo2
  rw [hds] at hspec
  refine ⟨rfl, ?_, ?_, ?_⟩
  · intro hdead hrec
    have hrec2 : (fireOffline s).isRecovering = false := hrec
    have hred : fireOnline o (fireOffline s) now =
        _reconnect o true
          { fireOffline s with isNetworkOffline := false, reconnectTimes := 0,
                               isRecovering := true } := by
      rw [hspec, if_pos hdead, if_neg (by simp [hrec2])]
    rw [hred, reconnect_true_spec o
      { fireOffline s with isNetworkOffline := false, reconnectTimes := 0,
                           isRecovering := true } hm]
    refine ⟨rfl, ?_, ?_, ?_, rfl, ?_⟩
    · exact ((closeSocket_fields _).1).trans rfl
    · exact ((closeSocket_fields _).2.2.2.2.2.2.2.2.2.1).trans rfl
    · exact ((closeSocket_fields _).2.2.2.2.2.2.1).trans rfl
    · have hoff2 : ({ _closeSocket { fireOffline s with
          isNetworkOffline := false, reconnectTimes := 0, isRecovering := true }
          with reconnectTimer := some true } : WSState).isNetworkOffline
            = false :=
        ((closeSocket_fields _).2.2.2.2.2.2.2.2.2.1).trans rfl
      unfold fireOnline
      rw [if_pos (Or.inr hoff2)]
  · intro hdead hrec
    have hrec2 : (fireOffline s).isRecovering = true := hrec
    rw [hspec, if_pos hdead, if_pos hrec2]
    exact ⟨rfl, rfl⟩
  · intro hdead
    rw [hspec, if_neg (by simp [hdead])]
    exact ⟨rfl, rfl, rfl, rfl⟩

/-- C8 witness: socket absent and heartbeat stale; offline then online
issues one forced reconnect with the counter reset. -/
theorem network_recovery_witness :
    (fireOnline c3o (fireOffline w8S) 99999).2 =
      [Effect.reconnectScheduled true] ∧
    (fireOnline c3o (fireOffline w8S) 99999).1.reconnectTimes = 0 ∧
    (fireOnline c3o (fireOffline w8S) 99999).1.isRecovering = true := by
  have h := network_recovery c3o w8S 99999 100000 rfl rfl
  obtain ⟨-, h2, -, -⟩ := h
  obtain ⟨g1, g2, -, g4, -, -⟩ := h2 rfl rfl
  exact ⟨g1, g2, g4⟩

/-- Helper: unfolding of one iteration of `closeCycles`. -/
theorem closeCycles_succ (o : KWebSocketOptions) (now n : Nat) (s : WSState) :
    closeCycles o now (n + 1) s =
      ((closeCycles o now n (closeCycle o now s).1).1,
       (closeCycle o now s).2 ++
         (closeCycles o now n (closeCycle o now s).1).2) := rfl

/-- Helper: one unexpected-close cycle below the retry ceiling: the close
event schedules exactly one non-forced attempt, the timer fires and opens
the next socket on the same URL, and the retry counter has grown by one. -/
theorem closeCycle_step (o : KWebSocketOptions) (now : Nat) (s : WSState)
    (sk : Socket) (hsk : s.socket = some sk)
    (hw : sk.onclose = CloseHandler.watch) (hm : s.manualCloseFlag = false)
    (hk : s.reconnectTimes < o.maxReconnectTimes) :
    (closeCycle o now s).1.socket =
      some ⟨s.url, ReadyState.CONNECTING, CloseHandler.watch⟩ ∧
    (closeCycle o now s).1.manualCloseFlag = false ∧
    (closeCycle o now s).1.reconnectTimes = s.reconnectTimes + 1 ∧
    (closeCycle o now s).1.reconnectTimer = none ∧
    (closeCycle o now s).1.url = s.url ∧
    (closeCycle o now s).2 = [Effect.closeCalled,
      Effect.reconnectScheduled false, Effect.socketCreated s.url] := by
  refine ⟨?_, ?_, ?_, ?_, ?_, ?_⟩ <;>
    simp [closeCycle, fireClose, fireReconnectTimer, _reconnect, _closeSocket,
          socketDotClose, _clearTimers, _init, hsk, hw, hm, hk,
          Nat.succ_le_of_lt hk]

/-- Helper: invariant of iterated unexpected-close cycles while the retry
budget lasts: after n cycles the counter has grown by n, exactly n
non-forced attempts (and no forced ones) were scheduled, and a watch-handled
socket is live again. -/
theorem closeCycles_inv (o : KWebSocketOptions) (now : Nat) :
    ∀ (n : Nat) (s : WSState) (sk : Socket), s.socket = some sk →
      sk.onclose = CloseHandler.watch → s.manualCloseFlag = false →
      s.reconnectTimer = none →
      s.reconnectTimes + n ≤ o.maxReconnectTimes →
      (∃ sk2 : Socket, (closeCycles o now n s).1.socket = some sk2 ∧
        sk2.onclose = CloseHandler.watch) ∧
      (closeCycles o now n s).1.manualCloseFlag = false ∧
      (closeCycles o now n s).1.reconnectTimes = s.reconnectTimes + n ∧
      (closeCycles o now n s).1.reconnectTimer = none ∧
      countScheduled false (closeCycles o now n s).2 = n ∧
      countScheduled true (closeCycles o now n s).2 = 0 := by
  intro n
  induction n with
  | zero =>
      intro s sk hsk hw hm ht hle
      exact ⟨⟨sk, hsk, hw⟩, hm, rfl, ht, rfl, rfl⟩
  | succ n ih =>
      intro s sk hsk hw hm ht hle
      have hk : s.reconnectTimes < o.maxReconnectTimes := by omega
      obtain ⟨c1, c2, c3, c4, c5, c6⟩ := closeCycle_step o now s sk hsk hw hm hk
      have hle2 : (closeCycle o now s).1.reconnectTimes + n ≤
          o.maxReconnectTimes := by omega
      obtain ⟨hex, i2, i3, i4, i5, i6⟩ := ih (closeCycle o now s).1
        ⟨s.url, ReadyState.CONNECTING, CloseHandler.watch⟩ c1 rfl c2 c4 hle2
      rw [closeCycles_succ]
      refine ⟨hex, i2, ?_, i4, ?_, ?_⟩
      · show (closeCycles o now n (closeCycle o now s).1).1.reconnectTimes =
          s.reconnectTimes + (n + 1)
        omega
      · show countScheduled false ((closeCycle o now s).2 ++
          (closeCycles o now n (closeCycle o now s).1).2) = n + 1
        unfold countScheduled
        rw [List.countP_append]
        have : countScheduled false (closeCycle o now s).2 = 1 := by
          rw [c6]; rfl
        unfold countScheduled at this i5
        omega
      · show countScheduled true ((closeCycle o now s).2 ++
          (closeCycles o now n (closeCycle o now s).1).2) = 0
        unfold countScheduled
        rw [List.countP_append]
        have : countScheduled true (closeCycle o now s).2 = 0 := by
          rw [c6]; rfl
        unfold countScheduled at this i6
        omega

/-- Helper: the `_watch` onclose handler with the retry counter at or above
the ceiling reports `onClose` and schedules nothing. -/
theorem fireClose_watch_stop (o : KWebSocketOptions) (u : WSState)
    (sk2 : Socket) (hsk : u.socket = some sk2)
    (hw : sk2.onclose = CloseHandler.watch)
    (hge : o.maxReconnectTimes ≤ u.reconnectTimes) (now : Nat) :
    (fireClose o u now).2 = [Effect.closeCalled] ∧
    (fireClose o u now).1.reconnectTimer = none ∧
    (fireClose o u now).1.reconnectTimes = u.reconnectTimes := by
  have he : fireClose o u now =
      (_clearTimers { u with socket := some ⟨sk2.url, ReadyState.CLOSED, sk2.onclose⟩ },
       [Effect.closeCalled]) := by
    unfold fireClose
    rw [hsk]
    simp only [hw]
    rw [if_neg]
    rintro ⟨-, hlt⟩
    have hlt2 : u.reconnectTimes < o.maxReconnectTimes := hlt
    omega
  rw [he]
  exact ⟨rfl, rfl, rfl⟩

/-- C1: starting from a live watch-handled socket with the retry counter at
0 and `maxReconnectTimes = N`, N+1 consecutive unexpected closes (each
scheduled retry firing in between) schedule exactly N non-forced reconnect
attempts and no forced ones; the (N+1)-th close schedules nothing further;
and every non-forced attempt increments the retry counter first and is
scheduled exactly when the incremented counter stays within the ceiling. -/
theorem bounded_retry (o : KWebSocketOptions) (N now : Nat) (s : WSState)
    (sk : Socket) (hmax : o.maxReconnectTimes = N) (hsk : s.socket = some sk)
    (hw : sk.onclose = CloseHandler.watch) (hm : s.manualCloseFlag = false)
    (h0 : s.reconnectTimes = 0) (ht : s.reconnectTimer = none) :
    countScheduled false (closeCycles o now N s).2 = N ∧
    countScheduled true (closeCycles o now N s).2 = 0 ∧
    (fireClose o (closeCycles o now N s).1 now).2 = [Effect.closeCalled] ∧
    (fireClose o (closeCycles o now N s).1 now).1.reconnectTimer = none ∧
    (∀ t : WSState, t.manualCloseFlag = false →
      (_reconnect o false t).1.reconnectTimes = t.reconnectTimes + 1 ∧
      ((_reconnect o false t).1.reconnectTimer = some false ↔
        t.reconnectTimes + 1 ≤ o.maxReconnectTimes)) := by
  have hle : s.reconnectTimes + N ≤ o.maxReconnectTimes := by omega
  obtain ⟨⟨sk2, hsk2, hw2⟩, hm2, htimes2, ht2, hc5, hc6⟩ :=
    closeCycles_inv o now N s sk hsk hw hm ht hle
  have hge : o.maxReconnectTimes ≤ (closeCycles o now N s).1.reconnectTimes := by
    omega
  obtain ⟨f1, f2, -⟩ := fireClose_watch_stop o (closeCycles o now N s).1 sk2
    hsk2 hw2 hge now
  refine ⟨hc5, hc6, f1, f2, fun t htm => ?_⟩
  obtain ⟨r1, r2, -⟩ := reconnect_false_spec o t htm
  exact ⟨r1, r2⟩

/-- C1 witness: with ceiling 2, two close cycles schedule exactly two
non-forced attempts and the third close schedules nothing. -/
theorem bounded_retry_witness :
    countScheduled false (closeCycles wO 7 2 wS).2 = 2 ∧
    countScheduled true (closeCycles wO 7 2 wS).2 = 0 ∧
    (fireClose wO (closeCycles wO 7 2 wS).1 7).2 = [Effect.closeCalled] := by
  have h := bounded_retry wO 2 7 wS wSk rfl rfl rfl rfl rfl rfl
  exact ⟨h.1, h.2.1, h.2.2.1⟩
